import Mathlib

/-!
Verification of the Pipeline Orchestration Engine of the enhanced agent
system (request classifier, workflow registry, sequential and bounded-loop
pipeline semantics, session lifecycle, and the git/jira/pdf tool
boundaries).

Definitions are shallow embeddings of the Python source under
`enhanced_system/` (`main_orchestrator.py`, `agents/enhanced_coordinator.py`,
`tools/git_tools.py`, `tools/jira_tools.py`, `tools/pdf_tools.py`).
Python strings are modelled as Lean `String`; substring tests (`kw in s`)
and `str.lower()` (on the ASCII range, the only one the keyword tables
touch) are given explicit executable definitions below.
-/

/-- Boolean test that the first character list is an initial segment of the
second (the empty needle matches everywhere, as for Python `in`). -/
def startsWithL : List Char → List Char → Bool
  | [], _ => true
  | _ :: _, [] => false
  | a :: as, b :: bs => a == b && startsWithL as bs

/-- Boolean substring test on character lists, modelling Python `needle in
haystack`. -/
def hasSub (needle : List Char) : List Char → Bool
  | [] => startsWithL needle []
  | c :: rest => startsWithL needle (c :: rest) || hasSub needle rest

/-- ASCII lowercasing of one character, modelling `str.lower()` on the
ASCII range. -/
def lowerChar (c : Char) : Char :=
  if 65 ≤ c.toNat ∧ c.toNat ≤ 90 then Char.ofNat (c.toNat + 32) else c

/-- ASCII lowercasing of a character list. -/
def lowerStr (s : List Char) : List Char := s.map lowerChar

/-- Python `any(keyword in m for keyword in kws)`. -/
def kwAny (kws : List String) (m : List Char) : Bool :=
  kws.any fun k => hasSub k.data m

/-- The `if`/`elif` keyword-family chain of
`ChatbotOrchestrator._detect_request_type` (`main_orchestrator.py` lines
77-102), applied to the already-lowercased message `m`. -/
def detectFromLower (m : List Char) : String :=
  if kwAny ["git", "repository", "repo", "github", "gitlab"] m then
    if kwAny ["analyze", "changes", "diff", "commit"] m then "git_analysis"
    else "git_pull"
  else if kwAny ["jira", "ticket", "issue", "story"] m then
    if kwAny ["test", "case", "scenario"] m then "jira_test_generation"
    else "jira_analysis"
  else if kwAny ["pdf", "document", "file"] m then "pdf_processing"
  else if kwAny ["script", "automation", "generate"] m then "script_generation"
  else if kwAny ["test", "unittest", "pytest"] m then "test_generation"
  else if kwAny ["analyze", "code", "review"] m then "code_analysis"
  else "general_chat"

/-- Embedding of `ChatbotOrchestrator._detect_request_type`
(`main_orchestrator.py` lines 73-102): `message_lower = message.lower()`,
then the keyword chain. -/
def detect_request_type (message : String) : String :=
  detectFromLower (lowerStr message.data)

/-- The nine request-type names the classifier can return. -/
def classifierOutputs : List String :=
  ["git_analysis", "git_pull", "jira_test_generation", "jira_analysis",
   "pdf_processing", "script_generation", "test_generation", "code_analysis",
   "general_chat"]

/-- The five workflow agents of `enhanced_coordinator.py` (the values of
`workflow_map`). -/
inductive WorkflowAgent where
  | git_workflow
  | jira_workflow
  | pdf_workflow
  | script_workflow
  | test_generation_workflow
deriving DecidableEq

/-- Embedding of the `workflow_map` dictionary inside
`execute_selected_workflow` (`enhanced_coordinator.py` lines 253-259). -/
def workflow_map : List (String × WorkflowAgent) :=
  [("git_workflow", WorkflowAgent.git_workflow),
   ("jira_workflow", WorkflowAgent.jira_workflow),
   ("pdf_workflow", WorkflowAgent.pdf_workflow),
   ("script_workflow", WorkflowAgent.script_workflow),
   ("test_generation_workflow", WorkflowAgent.test_generation_workflow)]

/-- Embedding of `execute_selected_workflow` (`enhanced_coordinator.py`
lines 248-267): if the selected name is a key of `workflow_map` return its
workflow agent, otherwise return `None`. -/
def execute_selected_workflow (selected_workflow : String) : Option WorkflowAgent :=
  (workflow_map.find? fun p => p.1 == selected_workflow).map Prod.snd

/-- A chat session as stored in `active_sessions`; the session id handed
out by the in-memory session service is modelled as a natural number drawn
from a fresh-id counter. -/
structure Session where
  session_id : Nat
deriving DecidableEq

/-- The mutable state of a `ChatbotOrchestrator`
(`main_orchestrator.py` lines 26-33): the `active_sessions` dictionary,
modelled as a partial map from user id to session, together with the
session service's fresh-id counter. -/
structure OrchestratorState where
  active_sessions : String → Option Session
  next_session_id : Nat

/-- Embedding of `ChatbotOrchestrator.create_session`
(`main_orchestrator.py` lines 35-42): obtain a fresh session from the
session service and store it under `user_id` in `active_sessions`. -/
def create_session (st : OrchestratorState) (user_id : String) : OrchestratorState :=
  { active_sessions := fun u =>
      if u = user_id then some ⟨st.next_session_id⟩ else st.active_sessions u,
    next_session_id := st.next_session_id + 1 }

/-- Embedding of the session-handling step of
`ChatbotOrchestrator.process_user_message` (`main_orchestrator.py` lines
44-47): create a session only when `user_id` has none; the remainder of the
method (running the agent and collecting the streamed response) never
touches `active_sessions`. -/
def process_user_message (st : OrchestratorState) (user_id : String) : OrchestratorState :=
  if (st.active_sessions user_id).isNone then create_session st user_id else st

/-- Modelled from the spec: the SharedState store of spec section 4.1.
The concrete store lives in the `google.adk` session/state machinery and in
repository modules (`tools/workflow_tools.py`, the TestMozart agent files)
that are not present under `src/`; values are modelled as strings. `set`
overwrites, nothing is ever deleted, and an absent key reads as `none`. -/
def SharedState : Type := String → Option String

/-- Per-stage outcome status (spec section 3, ExecutionResult). -/
inductive StageStatus where
  | success
  | failure
deriving DecidableEq

/-- Modelled from the spec: what one Stage invocation produces - a status,
an optional diagnostic, and the updated SharedState (spec section 4.2). -/
structure StageOutcome where
  status : StageStatus
  diagnostic : Option String
  state : SharedState

/-- Modelled from the spec: a Stage - the atomic unit of work of spec
section 4.2, a named operation from SharedState to a StageOutcome. The
concrete stages are the `google.adk` sub-agents listed in
`enhanced_coordinator.py`, whose implementations are not under `src/`. -/
structure Stage where
  name : String
  run : SharedState → StageOutcome

/-- Modelled from the spec: the per-stage record aggregated into a
PipelineResult (spec section 3). State deltas are recoverable from the
final state, so they are not duplicated here. -/
structure ExecutionResult where
  stage : String
  status : StageStatus
  diagnostic : Option String

/-- Terminal status of a pipeline run (spec section 3). -/
inductive PipeStatus where
  | completed
  | failed
  | exhausted
deriving DecidableEq

/-- Modelled from the spec: the aggregate of one pipeline run - the ordered
ExecutionResult list, a terminal status, and the terminal SharedState
(spec section 3). -/
structure PipelineResult where
  results : List ExecutionResult
  status : PipeStatus
  finalState : SharedState

/-- Modelled from the spec: sequential pipeline execution (spec section
4.3). Stages run in declaration order, each seeing the cumulative state;
on the first failure the run stops with status `failed`, keeping the
partial ExecutionResult list and the state mutations already made (no
rollback). The concrete implementation is `google.adk`'s SequentialAgent,
not present under `src/`. -/
def runSeq : List Stage → SharedState → PipelineResult
  | [], st => ⟨[], PipeStatus.completed, st⟩
  | stage :: rest, st =>
    match (stage.run st).status with
    | StageStatus.failure =>
        ⟨[⟨stage.name, StageStatus.failure, (stage.run st).diagnostic⟩],
         PipeStatus.failed, (stage.run st).state⟩
    | StageStatus.success =>
        ⟨⟨stage.name, StageStatus.success, (stage.run st).diagnostic⟩
           :: (runSeq rest (stage.run st).state).results,
         (runSeq rest (stage.run st).state).status,
         (runSeq rest (stage.run st).state).finalState⟩

/-- Modelled from the spec: a LoopDescriptor (spec section 3) - a body
stage sequence, a maximum iteration count, and an exit predicate on
SharedState. The concrete instance is the `TestRefinementLoop` LoopAgent of
`enhanced_coordinator.py` lines 163-168 (`max_iterations=3`), whose
execution semantics live in `google.adk` and `tools/workflow_tools.py`
(`exit_loop`), not present under `src/`. -/
structure LoopDescriptor where
  body : List Stage
  max_iterations : Nat
  exitPred : SharedState → Bool

/-- Outcome of a bounded-loop run: how many iterations ran, the terminal
status, and the terminal state. -/
structure LoopResult where
  iterations : Nat
  status : PipeStatus
  finalState : SharedState

/-- Modelled from the spec: bounded-loop execution (spec section 4.4) with
`remaining` iterations still allowed. Run the body once; a body failure
stops immediately as a sequential failure; otherwise evaluate the exit
predicate on the post-iteration state - satisfied means stop with
`completed`, unsatisfied means repeat until the iteration budget is
exhausted, which stops with `exhausted`. -/
def runLoopAux (ld : LoopDescriptor) : Nat → SharedState → LoopResult
  | 0, st => ⟨0, PipeStatus.exhausted, st⟩
  | remaining + 1, st =>
    if (runSeq ld.body st).status = PipeStatus.failed then
      ⟨1, PipeStatus.failed, (runSeq ld.body st).finalState⟩
    else if ld.exitPred (runSeq ld.body st).finalState then
      ⟨1, PipeStatus.completed, (runSeq ld.body st).finalState⟩
    else
      ⟨(runLoopAux ld remaining (runSeq ld.body st).finalState).iterations + 1,
       (runLoopAux ld remaining (runSeq ld.body st).finalState).status,
       (runLoopAux ld remaining (runSeq ld.body st).finalState).finalState⟩

/-- Modelled from the spec: a full bounded-loop pipeline run, starting with
the configured `max_iterations` budget. -/
def runLoop (ld : LoopDescriptor) (st : SharedState) : LoopResult :=
  runLoopAux ld ld.max_iterations st

/-- The Classifier under the contract of spec section 4.5,
`classify(raw_request, state) -> workflow_name`: the source method
`ChatbotOrchestrator._detect_request_type` reads nothing but the message
text, so the embedded body ignores the state argument. -/
def classify (_state : SharedState) (raw_request : String) : String :=
  detect_request_type raw_request

/-- Outcome of a `subprocess.run` invocation as observed by
`clone_repository`: the call may hit its timeout (`TimeoutExpired`),
complete with a return code and captured output, or some other exception
may be raised inside the `try` block. -/
inductive ProcOutcome where
  | timeoutExpired
  | completed (returncode : Int) (stdout : String) (stderr : String)
  | raises (msg : String)

/-- The external environment `clone_repository` runs against: the temp
directory `tempfile.mkdtemp` would hand out, the outcome of the
`git clone` subprocess, and the return code and (already stripped) stdout
of the `git rev-parse HEAD` subprocess. -/
structure CloneEnv where
  mkdtemp : String
  clone_proc : ProcOutcome
  revparse_returncode : Int
  revparse_stdout : String

/-- The dictionary returned by `clone_repository`: `status`, `message` and
`local_path` are present in every branch; the keys only the success branch
adds are modelled as `Option` fields (`none` means the key is absent). -/
structure CloneResult where
  status : String
  message : String
  local_path : String
  repository_url : Option String
  branch : Option String
  commit_hash : Option String

/-- Embedding of `clone_repository` (`tools/git_tools.py` lines 35-93):
run `git clone` with a 300-second timeout; a timeout, a non-zero exit code
or any other exception yields a `status="error"` dictionary with a
diagnostic and an empty `local_path`, while success yields
`status="success"` with the clone directory and the commit hash read via
`git rev-parse HEAD`. -/
def clone_repository (env : CloneEnv) (repository_url : String) (branch : String)
    (target_dir : Option String) : CloneResult :=
  match env.clone_proc with
  | ProcOutcome.raises msg =>
      ⟨"error", "Error cloning repository: " ++ msg, "", none, none, none⟩
  | ProcOutcome.timeoutExpired =>
      ⟨"error", "Repository clone timed out", "", none, none, none⟩
  | ProcOutcome.completed rc _ stderr =>
      let dir := target_dir.getD env.mkdtemp
      if rc ≠ 0 then
        ⟨"error", "Failed to clone repository: " ++ stderr, "", none, none, none⟩
      else
        let commit_hash := if env.revparse_returncode = 0 then env.revparse_stdout else ""
        ⟨"success", "Successfully cloned repository to " ++ dir, dir,
         some repository_url, some branch, some commit_hash⟩

/-- Failure outcomes of the clone subprocess: timeout, non-zero exit, or
any other exception inside the `try` block. -/
def cloneFailureOutcome : ProcOutcome → Prop
  | ProcOutcome.timeoutExpired => True
  | ProcOutcome.completed rc _ _ => rc ≠ 0
  | ProcOutcome.raises _ => True

/-- ASCII uppercase letter test, the `[A-Z]` character class. -/
def isUpperAZ (c : Char) : Bool := 65 ≤ c.toNat && c.toNat ≤ 90

/-- ASCII digit test, the digit character class of the ticket pattern. -/
def isDigit09 (c : Char) : Bool := 48 ≤ c.toNat && c.toNat ≤ 57

/-- Match of the regular expression `/browse/([A-Z]+-[0-9]+)` anchored at
the start of `l` (the pattern `fetch_jira_ticket` searches for; its digit
class is modelled on the ASCII range): the literal `/browse/`, then a
nonempty maximal run of uppercase letters, a dash, and a nonempty maximal
digit run; the returned value is the captured group. -/
def matchBrowseAt (l : List Char) : Option (List Char) :=
  if startsWithL "/browse/".data l then
    match (l.drop 8).takeWhile isUpperAZ,
        (l.drop 8).drop ((l.drop 8).takeWhile isUpperAZ).length with
    | [], _ => none
    | u :: us, '-' :: rest3 =>
      if (rest3.takeWhile isDigit09).isEmpty then none
      else some ((u :: us) ++ '-' :: rest3.takeWhile isDigit09)
    | _ :: _, _ => none
  else none

/-- Leftmost search for the `/browse/([A-Z]+-[0-9]+)` pattern
(`re.search` in `fetch_jira_ticket`): try every start position from the
left and return the first captured group. -/
def searchTicket : List Char → Option (List Char)
  | [] => none
  | c :: rest =>
    match matchBrowseAt (c :: rest) with
    | some t => some t
    | none => searchTicket rest

/-- The ticket-id extraction step of `fetch_jira_ticket`
(`tools/jira_tools.py` lines 95-104): an input starting with `http` is
searched for the `/browse/` ticket pattern (empty string when absent); any
other input is used as the ticket id verbatim. -/
def extractTicketId (s : String) : String :=
  if startsWithL "http".data s.data then
    match searchTicket s.data with
    | some t => String.mk t
    | none => ""
  else s

/-- A JIRA ticket as returned inside the `fetch_jira_ticket` result
dictionary (`tools/jira_tools.py`). -/
structure JiraTicket where
  ticket_id : String
  title : String
  description : String
  status : String
  priority : String
  assignee : String
  reporter : String
  acceptance_criteria : List String
  labels : List String
  components : List String
deriving DecidableEq

/-- The dictionary returned by `fetch_jira_ticket`: a status, a message,
and the ticket payload (`None` in the error branch). -/
structure JiraFetchResult where
  status : String
  message : String
  ticket : Option JiraTicket
deriving DecidableEq

/-- The `PROJ-123` entry of `mock_ticket_data` in `fetch_jira_ticket`
(`tools/jira_tools.py` lines 115-131). -/
def mock_ticket_PROJ123 : JiraTicket :=
  { ticket_id := "PROJ-123",
    title := "Implement user authentication system",
    description := "As a user, I want to be able to log in to the system securely so that I can access my personal dashboard.",
    status := "In Progress",
    priority := "High",
    assignee := "john.doe@company.com",
    reporter := "product.manager@company.com",
    acceptance_criteria :=
      ["User can log in with valid email and password",
       "System displays error message for invalid credentials",
       "User session expires after 30 minutes of inactivity",
       "Password must meet complexity requirements",
       "Account locks after 5 failed login attempts"],
    labels := ["authentication", "security", "user-management"],
    components := ["Frontend", "Backend", "Database"] }

/-- The `STORY-456` entry of `mock_ticket_data` in `fetch_jira_ticket`
(`tools/jira_tools.py` lines 132-148). -/
def mock_ticket_STORY456 : JiraTicket :=
  { ticket_id := "STORY-456",
    title := "Add shopping cart functionality",
    description := "Implement shopping cart where users can add, remove, and modify items before checkout.",
    status := "To Do",
    priority := "Medium",
    assignee := "jane.smith@company.com",
    reporter := "business.analyst@company.com",
    acceptance_criteria :=
      ["Users can add items to cart from product pages",
       "Users can view cart contents and total price",
       "Users can modify quantities or remove items",
       "Cart persists across browser sessions",
       "Cart shows real-time inventory availability"],
    labels := ["e-commerce", "shopping", "frontend"],
    components := ["Frontend", "API", "Database"] }

/-- The generic mock ticket `fetch_jira_ticket` fabricates for ids outside
its two known samples (`tools/jira_tools.py` lines 171-193). -/
def generic_ticket (ticket_id : String) : JiraTicket :=
  { ticket_id := ticket_id,
    title := "Generic ticket " ++ ticket_id,
    description := "This is a mock ticket for demonstration purposes.",
    status := "Open",
    priority := "Medium",
    assignee := "unassigned",
    reporter := "system",
    acceptance_criteria :=
      ["Implement the required functionality",
       "Add appropriate error handling",
       "Include unit tests",
       "Update documentation"],
    labels := ["feature", "development"],
    components := ["Backend"] }

/-- Embedding of `fetch_jira_ticket` (`tools/jira_tools.py` lines 75-200):
extract the ticket id (from a URL when the input starts with `http`,
verbatim otherwise); an empty id yields the error dictionary, a known id
yields its mock ticket, and any other id yields a fabricated generic
ticket. The unused authentication parameters and the `jira_base_url`
bookkeeping of the source do not influence the returned dictionary. -/
def fetch_jira_ticket (ticket_url_or_id : String) : JiraFetchResult :=
  let ticket_id := extractTicketId ticket_url_or_id
  if ticket_id = "" then
    ⟨"error", "Invalid ticket URL or ID", none⟩
  else if ticket_id = "PROJ-123" then
    ⟨"success", "Successfully fetched ticket " ++ ticket_id, some mock_ticket_PROJ123⟩
  else if ticket_id = "STORY-456" then
    ⟨"success", "Successfully fetched ticket " ++ ticket_id, some mock_ticket_STORY456⟩
  else
    ⟨"success", "Successfully fetched ticket " ++ ticket_id, some (generic_ticket ticket_id)⟩

/-- A section entry of the mock PDF content (`tools/pdf_tools.py`). -/
structure PdfSection where
  section_id : String
  title : String
  content : String
  page_number : Nat
  section_type : String
deriving DecidableEq

/-- One entry of `mock_pdf_content` (or the generic fallback) in
`extract_pdf_content`: a document title, a page count, the extracted text,
and the section list. -/
structure PdfContentData where
  title : String
  total_pages : Nat
  content : String
  sections : List PdfSection
deriving DecidableEq

/-- The success payload of `extract_pdf_content`: the keys only the
success branch adds to the returned dictionary. -/
structure PdfPayload where
  document_title : String
  total_pages : Nat
  full_content : String
  sections : List PdfSection
  file_path : String
deriving DecidableEq

/-- The dictionary returned by `extract_pdf_content`: `status` and
`message` are present in every branch; the success-only keys are the
payload (`none` means the error branch, whose only extra key is an empty
`content`). -/
structure PdfResult where
  status : String
  message : String
  payload : Option PdfPayload
deriving DecidableEq

/-- The `user_manual.pdf` entry of `mock_pdf_content`
(`tools/pdf_tools.py` lines 63-134); the text lines of the Python
triple-quoted content literal are joined with newlines, without
reproducing its leading indentation. -/
def mock_user_manual : PdfContentData :=
  { title := "User Authentication System - Requirements Document",
    total_pages := 15,
    content := "1. INTRODUCTION\nThis document outlines the requirements for implementing a secure user authentication system.\n\n2. FUNCTIONAL REQUIREMENTS\n2.1 User Registration\n- Users must be able to create accounts with email and password\n- Email validation is required before account activation\n- Password must meet complexity requirements (8+ characters, mixed case, numbers, symbols)\n\n2.2 User Login\n- Users must authenticate with email and password\n- System must support \"Remember Me\" functionality\n- Failed login attempts must be tracked and limited\n\n2.3 Password Management\n- Users must be able to reset forgotten passwords\n- Password reset must use secure email verification\n- Users must be able to change passwords when logged in\n\n3. NON-FUNCTIONAL REQUIREMENTS\n3.1 Security\n- All passwords must be hashed using bcrypt or similar\n- Session tokens must expire after 30 minutes of inactivity\n- All authentication endpoints must use HTTPS\n\n3.2 Performance\n- Login response time must be under 2 seconds\n- System must support 1000+ concurrent users\n\n4. ACCEPTANCE CRITERIA\n- User can successfully register with valid information\n- User receives email confirmation after registration\n- User can log in with valid credentials\n- User cannot log in with invalid credentials\n- User account locks after 5 failed attempts\n- User can reset password using email link",
    sections :=
      [⟨"1", "Introduction", "This document outlines the requirements for implementing a secure user authentication system.", 1, "content"⟩,
       ⟨"2", "Functional Requirements", "User Registration, User Login, Password Management requirements...", 2, "requirements"⟩,
       ⟨"3", "Non-Functional Requirements", "Security and Performance requirements...", 8, "requirements"⟩,
       ⟨"4", "Acceptance Criteria", "Detailed acceptance criteria for all features...", 12, "criteria"⟩] }

/-- The `api_spec.pdf` entry of `mock_pdf_content`
(`tools/pdf_tools.py` lines 135-183); same newline normalization as for
the user manual entry. -/
def mock_api_spec : PdfContentData :=
  { title := "REST API Specification v2.1",
    total_pages := 25,
    content := "API SPECIFICATION\n\n1. AUTHENTICATION ENDPOINTS\nPOST /api/auth/login\n- Request: \x7b\"email\": \"string\", \"password\": \"string\"\x7d\n- Response: \x7b\"token\": \"string\", \"expires\": \"datetime\"\x7d\n\nPOST /api/auth/register\n- Request: \x7b\"email\": \"string\", \"password\": \"string\", \"firstName\": \"string\", \"lastName\": \"string\"\x7d\n- Response: \x7b\"userId\": \"string\", \"message\": \"string\"\x7d\n\n2. USER MANAGEMENT ENDPOINTS\nGET /api/users/profile\n- Headers: Authorization: Bearer <token>\n- Response: \x7b\"userId\": \"string\", \"email\": \"string\", \"profile\": \x7b\x7d\x7d\n\nPUT /api/users/profile\n- Headers: Authorization: Bearer <token>\n- Request: \x7b\"firstName\": \"string\", \"lastName\": \"string\", \"phone\": \"string\"\x7d\n- Response: \x7b\"success\": \"boolean\", \"message\": \"string\"\x7d\n\n3. ERROR RESPONSES\n- 400 Bad Request: Invalid input parameters\n- 401 Unauthorized: Invalid or expired token\n- 403 Forbidden: Insufficient permissions\n- 404 Not Found: Resource not found\n- 500 Internal Server Error: Server error",
    sections :=
      [⟨"1", "Authentication Endpoints", "POST /api/auth/login, POST /api/auth/register", 3, "api_spec"⟩,
       ⟨"2", "User Management Endpoints", "GET /api/users/profile, PUT /api/users/profile", 8, "api_spec"⟩] }

/-- Tail of the character list after the last slash, modelling
`os.path.basename` on POSIX paths. -/
def basenameAux : List Char → List Char → List Char
  | [], acc => acc.reverse
  | c :: rest, acc =>
    if c = '/' then basenameAux rest [] else basenameAux rest (c :: acc)

/-- Python `os.path.basename` on a POSIX path. -/
def basename (l : List Char) : List Char := basenameAux l []

/-- The generic fallback content `extract_pdf_content` fabricates when the
filename matches neither mock entry (`tools/pdf_tools.py` lines 193-208). -/
def generic_pdf_content (pdf_path_or_url : String) : PdfContentData :=
  { title := "Document: " ++ String.mk (basename pdf_path_or_url.data),
    total_pages := 5,
    content := "This is a sample PDF document with generic content for demonstration purposes.",
    sections := [⟨"1", "Generic Section", "Sample content from PDF document", 1, "content"⟩] }

/-- URL test of `extract_pdf_content`:
`pdf_path_or_url.startswith(("http://", "https://"))`. -/
def isPdfUrl (s : String) : Bool :=
  startsWithL "http://".data s.data || startsWithL "https://".data s.data

/-- Embedding of `extract_pdf_content` (`tools/pdf_tools.py` lines 33-225)
against a file system modelled as the predicate `fs` (`os.path.exists`):
URL inputs and missing local files yield error dictionaries; an existing
local file yields a success dictionary whose content is picked from the
mock table by keywords of the lowercased basename. -/
def extract_pdf_content (fs : String → Bool) (pdf_path_or_url : String) : PdfResult :=
  if isPdfUrl pdf_path_or_url then
    ⟨"error", "PDF URL download not implemented in this demo", none⟩
  else if !(fs pdf_path_or_url) then
    ⟨"error", "PDF file not found: " ++ pdf_path_or_url, none⟩
  else
    let filename := lowerStr (basename pdf_path_or_url.data)
    let content_data :=
      if hasSub "user".data filename || hasSub "manual".data filename
          || hasSub "requirements".data filename then mock_user_manual
      else if hasSub "api".data filename || hasSub "spec".data filename then mock_api_spec
      else generic_pdf_content pdf_path_or_url
    ⟨"success", "Successfully extracted content from " ++ pdf_path_or_url,
     some ⟨content_data.title, content_data.total_pages, content_data.content,
           content_data.sections, pdf_path_or_url⟩⟩

/-- Fixture stage that succeeds and records a key in SharedState (the A of
the [A, B, C] scenario). -/
def stageA : Stage :=
  ⟨"A", fun st => ⟨StageStatus.success, none,
    fun k => if k = "a_done" then some "1" else st k⟩⟩

/-- Fixture stage that fails with a diagnostic, leaving SharedState
unchanged (the B of the [A, B, C] scenario). -/
def stageB : Stage :=
  ⟨"B", fun st => ⟨StageStatus.failure, some "stage B failed", st⟩⟩

/-- Fixture stage that succeeds without touching SharedState (the C of the
[A, B, C] scenario). -/
def stageC : Stage :=
  ⟨"C", fun st => ⟨StageStatus.success, none, st⟩⟩

/-- Fixture loop with `max_iterations = 3` (the `TestRefinementLoop`
configuration) whose exit predicate is never satisfied. -/
def loopNoExit : LoopDescriptor := ⟨[], 3, fun _ => false⟩

/-- Fixture loop with `max_iterations = 3` whose exit predicate is
satisfied immediately after the first iteration. -/
def loopExitNow : LoopDescriptor := ⟨[], 3, fun _ => true⟩

/-- Fixture environment in which the `git clone` subprocess hits its
timeout. -/
def timeoutCloneEnv : CloneEnv :=
  ⟨"/tmp/git_analysis_x", ProcOutcome.timeoutExpired, 0, ""⟩

/-- Fixture orchestrator state with no active sessions. -/
def emptyOrch : OrchestratorState := ⟨fun _ => none, 0⟩

theorem detectFromLower_total (m : List Char) :
    detectFromLower m ∈ classifierOutputs := by
  unfold detectFromLower classifierOutputs
  repeat' split
  all_goals simp

theorem detect_request_type_total (message : String) :
    detect_request_type message ∈ classifierOutputs :=
  detectFromLower_total _

/-- Claim C3 counterexample: on the request text "hello" the classifier
returns "general_chat", not the name "general" stated by the claim. -/
theorem detect_hello_not_general :
    detect_request_type "hello" = "general_chat" ∧
    detect_request_type "hello" ≠ "general" := by
  exact ⟨by decide, by decide⟩

/-- Claim C3 (amended): the classifier is a total function mapping every
request text to exactly one of its nine workflow names, with the
designated default "general_chat" for inputs matching no specialized
keyword family; the git-analysis scenario returns "git_analysis", the
JIRA scenario returns "jira_test_generation", and "hello" returns the
default "general_chat". -/
theorem classifier_total_with_default :
    (∀ message : String, detect_request_type message ∈ classifierOutputs) ∧
    detect_request_type "Analyze git repository https://example.com/repo.git changes since last commit" = "git_analysis" ∧
    detect_request_type "Generate tests from JIRA ticket PROJ-123" = "jira_test_generation" ∧
    detect_request_type "hello" = "general_chat" :=
  ⟨detect_request_type_total, by decide, by decide, by decide⟩

theorem registry_misses_classifierOutputs (x : String) (hx : x ∈ classifierOutputs) :
    execute_selected_workflow x = none := by
  fin_cases hx <;> decide

/-- Claim C4 counterexample: "git_analysis" is a reachable classifier
output (returned on the git-analysis scenario text), yet the workflow
registry `workflow_map` has no entry for it - the lookup silently yields
`none` instead of a matching entry or a diagnostic abort. -/
theorem git_analysis_not_in_registry :
    detect_request_type "Analyze git repository https://example.com/repo.git changes since last commit" = "git_analysis" ∧
    execute_selected_workflow "git_analysis" = none := by
  exact ⟨by decide, by decide⟩

/-- Claim C4 (amended): the classifier/registry consistency invariant
fails in the strongest possible way - no classifier output name has a
matching entry in the workflow registry (its keys are exactly the five
`*_workflow` names, disjoint from the nine request-type names), and a
lookup of a name absent from the registry returns `none` (no workflow)
rather than aborting the request with a diagnostic. -/
theorem classifier_outputs_not_in_registry :
    (∀ message : String,
       execute_selected_workflow (detect_request_type message) = none) ∧
    workflow_map.map Prod.fst =
      ["git_workflow", "jira_workflow", "pdf_workflow", "script_workflow",
       "test_generation_workflow"] := by
  refine ⟨fun message => ?_, by decide⟩
  exact registry_misses_classifierOutputs _ (detect_request_type_total message)

/-- Claim C5: classification resolves overlapping keyword families by the
fixed order of the source chain, so every request whose lowercased text
mentions both "git" and "test" is classified into a git-domain workflow
("git_analysis" or "git_pull"), never the generic test workflow or the
default. -/
theorem git_takes_precedence_over_test (message : String)
    (hgit : hasSub "git".data (lowerStr message.data) = true)
    (_htest : hasSub "test".data (lowerStr message.data) = true) :
    detect_request_type message = "git_analysis" ∨
    detect_request_type message = "git_pull" := by
  have h1 : kwAny ["git", "repository", "repo", "github", "gitlab"]
      (lowerStr message.data) = true := by
    simp [kwAny, hgit]
  by_cases h2 : kwAny ["analyze", "changes", "diff", "commit"]
      (lowerStr message.data) = true
  · exact Or.inl (by simp [detect_request_type, detectFromLower, h1, h2])
  · exact Or.inr (by simp [detect_request_type, detectFromLower, h1, h2])

/-- Witness for claim C5 at the concrete message "git test". -/
theorem git_takes_precedence_over_test_witness :
    hasSub "git".data (lowerStr "git test".data) = true ∧
    hasSub "test".data (lowerStr "git test".data) = true ∧
    (detect_request_type "git test" = "git_analysis" ∨
     detect_request_type "git test" = "git_pull") :=
  ⟨by decide, by decide,
   git_takes_precedence_over_test "git test" (by decide) (by decide)⟩

/-- Claim C6: the classifier is deterministic - its result depends only on
the raw request text, so any two classification runs with any (in
particular identical) SharedState return the same workflow name. -/
theorem classify_deterministic (st1 st2 : SharedState) (raw_request : String) :
    classify st1 raw_request = classify st2 raw_request := rfl

theorem process_preserves_sessions (st : OrchestratorState) (user_id v : String)
    (s : Session) (h : st.active_sessions v = some s) :
    (process_user_message st user_id).active_sessions v = some s := by
  unfold process_user_message create_session
  split
  · rename_i hnone
    by_cases hv : v = user_id
    · subst hv
      rw [h] at hnone
      simp at hnone
    · simpa [hv] using h
  · exact h

theorem foldl_process_preserves_sessions (users : List String) :
    ∀ (st : OrchestratorState) (v : String) (s : Session),
      st.active_sessions v = some s →
      (users.foldl process_user_message st).active_sessions v = some s := by
  induction users with
  | nil => intro st v s h; exact h
  | cons u rest ih =>
    intro st v s h
    exact ih _ _ _ (process_preserves_sessions st u v s h)

/-- Claim C8: handling a request creates a session exactly on a user id's
first request (storing the fresh session under that id), reuses the stored
session unchanged on every later request from the same id, and never
evicts or replaces any stored session - over any sequence of requests, a
session once present stays present and identical. -/
theorem session_lifecycle :
    (∀ (st : OrchestratorState) (user_id : String),
       (st.active_sessions user_id = none →
          (process_user_message st user_id).active_sessions user_id =
            some ⟨st.next_session_id⟩) ∧
       (∀ s : Session, st.active_sessions user_id = some s →
          process_user_message st user_id = st) ∧
       (∀ (v : String) (s : Session), st.active_sessions v = some s →
          (process_user_message st user_id).active_sessions v = some s)) ∧
    (∀ (st : OrchestratorState) (users : List String) (v : String) (s : Session),
       st.active_sessions v = some s →
       (users.foldl process_user_message st).active_sessions v = some s) := by
  constructor
  · intro st user_id
    refine ⟨?_, ?_, ?_⟩
    · intro hnone
      unfold process_user_message create_session
      rw [hnone]
      simp
    · intro s hs
      unfold process_user_message
      rw [hs]
      simp
    · intro v s hs
      exact process_preserves_sessions st user_id v s hs
  · intro st users v s h
    exact foldl_process_preserves_sessions users st v s h

/-- Witness for claim C8: from the empty orchestrator state, a first
request from "demo_user" creates and stores session 0, and a second
request leaves the state unchanged. -/
theorem session_lifecycle_witness :
    (process_user_message emptyOrch "demo_user").active_sessions "demo_user" =
      some ⟨0⟩ ∧
    process_user_message (process_user_message emptyOrch "demo_user") "demo_user" =
      process_user_message emptyOrch "demo_user" :=
  ⟨(session_lifecycle.1 emptyOrch "demo_user").1 rfl,
   (session_lifecycle.1 (process_user_message emptyOrch "demo_user") "demo_user").2.1
     ⟨0⟩ ((session_lifecycle.1 emptyOrch "demo_user").1 rfl)⟩

/-- Claim C1: a sequential pipeline over stages [A, B, C] in which A
succeeds and B fails stops at B - the PipelineResult holds exactly the two
ExecutionResults (A succeeded, B failed), status `failed`, and its terminal
state is the state after B's run (A's SharedState mutations are retained,
no rollback); stage C is never executed, contributing neither an
ExecutionResult nor a state change. -/
theorem seq_pipeline_short_circuit (A B C : Stage) (st : SharedState)
    (hA : (A.run st).status = StageStatus.success)
    (hB : (B.run (A.run st).state).status = StageStatus.failure) :
    runSeq [A, B, C] st =
      ⟨[⟨A.name, StageStatus.success, (A.run st).diagnostic⟩,
        ⟨B.name, StageStatus.failure, (B.run (A.run st).state).diagnostic⟩],
       PipeStatus.failed, (B.run (A.run st).state).state⟩ := by
  simp [runSeq, hA, hB]

/-- Witness for claim C1 on concrete fixture stages: A records a key, B
fails, C is skipped, and A's mutation survives in the terminal state. -/
theorem seq_pipeline_short_circuit_witness :
    runSeq [stageA, stageB, stageC] (fun _ => none) =
      ⟨[⟨"A", StageStatus.success, none⟩,
        ⟨"B", StageStatus.failure, some "stage B failed"⟩],
       PipeStatus.failed, fun k => if k = "a_done" then some "1" else none⟩ :=
  seq_pipeline_short_circuit stageA stageB stageC (fun _ => none) rfl rfl

theorem runLoopAux_iterations_le (ld : LoopDescriptor) :
    ∀ (fuel : Nat) (st : SharedState),
      (runLoopAux ld fuel st).iterations ≤ fuel := by
  intro fuel
  induction fuel with
  | zero => intro st; simp [runLoopAux]
  | succ n ih =>
    intro st
    unfold runLoopAux
    split
    · simp
    · split
      · simp
      · have := ih (runSeq ld.body st).finalState
        simpa using Nat.succ_le_succ this

theorem runLoopAux_exhausts (ld : LoopDescriptor)
    (hbody : ∀ s : SharedState, (runSeq ld.body s).status ≠ PipeStatus.failed)
    (hpred : ∀ s : SharedState, ld.exitPred s = false) :
    ∀ (fuel : Nat) (st : SharedState),
      (runLoopAux ld fuel st).iterations = fuel ∧
      (runLoopAux ld fuel st).status = PipeStatus.exhausted := by
  intro fuel
  induction fuel with
  | zero => intro st; simp [runLoopAux]
  | succ n ih =>
    intro st
    unfold runLoopAux
    rw [if_neg (hbody st), if_neg (by simp [hpred])]
    have := ih (runSeq ld.body st).finalState
    simp [this.1, this.2]

/-- Claim C2: every bounded-loop run performs at most `max_iterations`
iterations, and at least one when the budget is positive; a loop with
`max_iterations = 3` (the `TestRefinementLoop` configuration) whose body
never fails and whose exit predicate is never satisfied runs exactly 3
iterations and stops with status `exhausted` (never a 4th), while a loop
whose exit predicate is satisfied after the first iteration runs exactly
once and stops with status `completed`. -/
theorem bounded_loop_iteration_bounds :
    (∀ (ld : LoopDescriptor) (st : SharedState),
       (runLoop ld st).iterations ≤ ld.max_iterations) ∧
    (∀ (ld : LoopDescriptor) (st : SharedState),
       0 < ld.max_iterations → 1 ≤ (runLoop ld st).iterations) ∧
    (∀ (ld : LoopDescriptor) (st : SharedState),
       ld.max_iterations = 3 →
       (∀ s : SharedState, (runSeq ld.body s).status ≠ PipeStatus.failed) →
       (∀ s : SharedState, ld.exitPred s = false) →
       (runLoop ld st).iterations = 3 ∧
       (runLoop ld st).status = PipeStatus.exhausted) ∧
    (∀ (ld : LoopDescriptor) (st : SharedState),
       0 < ld.max_iterations →
       (runSeq ld.body st).status ≠ PipeStatus.failed →
       ld.exitPred (runSeq ld.body st).finalState = true →
       (runLoop ld st).iterations = 1 ∧
       (runLoop ld st).status = PipeStatus.completed) := by
  refine ⟨?_, ?_, ?_, ?_⟩
  · intro ld st
    exact runLoopAux_iterations_le ld ld.max_iterations st
  · intro ld st hpos
    unfold runLoop
    obtain ⟨n, hn⟩ := Nat.exists_eq_add_of_lt hpos
    rw [hn]
    rw [Nat.zero_add]
    unfold runLoopAux
    split
    · simp
    · split
      · simp
      · simp
  · intro ld st hmax hbody hpred
    unfold runLoop
    rw [hmax]
    exact runLoopAux_exhausts ld hbody hpred 3 st
  · intro ld st hpos hbody hpred
    unfold runLoop
    obtain ⟨n, hn⟩ := Nat.exists_eq_add_of_lt hpos
    rw [hn, Nat.zero_add]
    unfold runLoopAux
    rw [if_neg hbody, if_pos hpred]
    exact ⟨rfl, rfl⟩

/-- Witness for claim C2 on the fixture loops: the never-exiting loop with
budget 3 runs 3 iterations to exhaustion; the immediately-exiting loop
runs once to completion. -/
theorem bounded_loop_iteration_bounds_witness :
    ((runLoop loopNoExit (fun _ => none)).iterations = 3 ∧
     (runLoop loopNoExit (fun _ => none)).status = PipeStatus.exhausted) ∧
    ((runLoop loopExitNow (fun _ => none)).iterations = 1 ∧
     (runLoop loopExitNow (fun _ => none)).status = PipeStatus.completed) :=
  ⟨bounded_loop_iteration_bounds.2.2.1 loopNoExit (fun _ => none) rfl
     (fun s => by simp [runSeq, loopNoExit]) (fun s => rfl),
   bounded_loop_iteration_bounds.2.2.2 loopExitNow (fun _ => none)
     (by decide) (by simp [runSeq, loopExitNow]) rfl⟩

theorem append_ne_empty_left (a b : String) (ha : a ≠ "") : (a ++ b) ≠ "" := by
  intro h
  have hd := congrArg String.data h
  rw [String.data_append] at hd
  exact ha (String.ext (by simpa using (List.append_eq_nil.mp (by simpa using hd)).1))

theorem timeout_message_ne_empty : ("Repository clone timed out" : String) ≠ "" := by
  decide

/-- Claim C7: `clone_repository` never raises past the tool boundary - it
totally maps every environment to a result dictionary whose status is
"error" or "success"; and for every expected failure (clone timeout,
non-zero exit of the clone subprocess, or any other exception inside the
`try` block) the result has status "error", a nonempty diagnostic message,
and an empty `local_path`. -/
theorem clone_repository_error_handling :
    (∀ (env : CloneEnv) (repository_url branch : String) (target_dir : Option String),
       (clone_repository env repository_url branch target_dir).status = "error" ∨
       (clone_repository env repository_url branch target_dir).status = "success") ∧
    (∀ (env : CloneEnv) (repository_url branch : String) (target_dir : Option String),
       cloneFailureOutcome env.clone_proc →
       (clone_repository env repository_url branch target_dir).status = "error" ∧
       (clone_repository env repository_url branch target_dir).local_path = "" ∧
       (clone_repository env repository_url branch target_dir).message ≠ "") := by
  constructor
  · intro env repository_url branch target_dir
    unfold clone_repository
    rcases env.clone_proc with _ | ⟨rc, out, err⟩ | msg
    · exact Or.inl rfl
    · by_cases hrc : rc ≠ 0
      · simp [hrc]
      · simp [hrc]
    · exact Or.inl rfl
  · intro env repository_url branch target_dir hfail
    obtain ⟨md, cp, rrc, rso⟩ := env
    rcases cp with _ | ⟨rc, out, err⟩ | msg
    · exact ⟨rfl, rfl, fun h => timeout_message_ne_empty h⟩
    · have hrc : rc ≠ 0 := hfail
      refine ⟨?_, ?_, ?_⟩
      · simp [clone_repository, if_pos hrc]
      · simp [clone_repository, if_pos hrc]
      · simp only [clone_repository, if_pos hrc]
        exact fun h =>
          append_ne_empty_left "Failed to clone repository: " err (by decide) h
    · exact ⟨rfl, rfl, fun h =>
        append_ne_empty_left "Error cloning repository: " msg (by decide) h⟩

/-- Witness for claim C7 on the timeout fixture environment. -/
theorem clone_repository_error_handling_witness :
    cloneFailureOutcome timeoutCloneEnv.clone_proc ∧
    (clone_repository timeoutCloneEnv "https://example.com/repo.git" "main" none).status = "error" ∧
    (clone_repository timeoutCloneEnv "https://example.com/repo.git" "main" none).local_path = "" ∧
    (clone_repository timeoutCloneEnv "https://example.com/repo.git" "main" none).message ≠ "" :=
  ⟨trivial,
   clone_repository_error_handling.2 timeoutCloneEnv
     "https://example.com/repo.git" "main" none trivial⟩

theorem startsWithL_ne_nil (c : Char) (cs l : List Char)
    (h : startsWithL (c :: cs) l = true) : l ≠ [] := by
  cases l with
  | nil => simp [startsWithL] at h
  | cons b bs => simp

theorem matchBrowseAt_some_ne_nil (l t : List Char)
    (h : matchBrowseAt l = some t) : t ≠ [] := by
  unfold matchBrowseAt at h
  split at h
  · split at h
    · exact absurd h (by simp)
    · split at h
      · exact absurd h (by simp)
      · rename_i u us rest3 hne
        rw [Option.some_inj] at h
        subst h
        simp
    · exact absurd h (by simp)
  · exact absurd h (by simp)

theorem searchTicket_some_ne_nil :
    ∀ (l t : List Char), searchTicket l = some t → t ≠ [] := by
  intro l
  induction l with
  | nil => intro t h; simp [searchTicket] at h
  | cons c rest ih =>
    intro t h
    unfold searchTicket at h
    split at h
    · rename_i t' hm
      rw [Option.some_inj] at h
      subst h
      exact matchBrowseAt_some_ne_nil _ _ hm
    · exact ih t h

theorem extractTicketId_eq_empty_iff (s : String) :
    extractTicketId s = "" ↔
      (s = "" ∨
       (startsWithL "http".data s.data = true ∧ searchTicket s.data = none)) := by
  unfold extractTicketId
  by_cases hh : startsWithL "http".data s.data = true
  · rw [if_pos hh]
    have hs : s ≠ "" := by
      intro he
      subst he
      simp [startsWithL] at hh
    cases hm : searchTicket s.data with
    | none => simp [hh, hs]
    | some t =>
      have ht : t ≠ [] := searchTicket_some_ne_nil _ _ hm
      have hmk : String.mk t ≠ "" := by
        intro hmk
        exact ht (by simpa using congrArg String.data hmk)
      simp [hh, hs, hmk]
  · rw [if_neg hh]
    simp [hh]

/-- Claim C9: `fetch_jira_ticket` returns status "error" with a `None`
ticket exactly when the extracted ticket id is empty - that is, when the
input is the empty string or starts with "http" without a
`/browse/PROJECT-number` segment; every other input yields status
"success" with a ticket whose `ticket_id` equals the extracted id (the two
known mock ids yield their sample tickets, all other ids a fabricated
generic ticket), so no not-found outcome is ever produced. -/
theorem fetch_jira_ticket_error_characterization (s : String) :
    ((fetch_jira_ticket s).status = "error" ↔
      (s = "" ∨
       (startsWithL "http".data s.data = true ∧ searchTicket s.data = none))) ∧
    ((fetch_jira_ticket s).status = "error" → (fetch_jira_ticket s).ticket = none) ∧
    ((fetch_jira_ticket s).status ≠ "error" →
      (fetch_jira_ticket s).status = "success" ∧
      ∃ t : JiraTicket, (fetch_jira_ticket s).ticket = some t ∧
        t.ticket_id = extractTicketId s) := by
  by_cases h : extractTicketId s = ""
  · refine ⟨?_, ?_, ?_⟩
    · rw [← extractTicketId_eq_empty_iff]
      simp [fetch_jira_ticket, h]
    · intro _
      simp [fetch_jira_ticket, h]
    · intro hne
      exact absurd (by simp [fetch_jira_ticket, h]) hne
  · have herr : (fetch_jira_ticket s).status = "success" := by
      by_cases h1 : extractTicketId s = "PROJ-123"
      · simp [fetch_jira_ticket, h, h1]
      · by_cases h2 : extractTicketId s = "STORY-456"
        · simp [fetch_jira_ticket, h, h1, h2]
        · simp [fetch_jira_ticket, h, h1, h2]
    refine ⟨?_, ?_, ?_⟩
    · rw [herr, ← extractTicketId_eq_empty_iff]
      constructor
      · intro hc; exact absurd hc (by decide)
      · intro hc; exact absurd hc h
    · intro hc
      rw [herr] at hc
      exact absurd hc (by decide)
    · intro _
      refine ⟨herr, ?_⟩
      by_cases h1 : extractTicketId s = "PROJ-123"
      · exact ⟨mock_ticket_PROJ123, by simp [fetch_jira_ticket, h, h1],
          by rw [h1]; rfl⟩
      · by_cases h2 : extractTicketId s = "STORY-456"
        · exact ⟨mock_ticket_STORY456, by simp [fetch_jira_ticket, h, h1, h2],
            by rw [h2]; rfl⟩
        · exact ⟨generic_ticket (extractTicketId s),
            by simp [fetch_jira_ticket, h, h1, h2], rfl⟩

/-- Witness for claim C9: the empty input and a browse-less URL yield the
error outcome, while the known id "PROJ-123" yields a successful fetch of
its mock ticket. -/
theorem fetch_jira_ticket_error_characterization_witness :
    (fetch_jira_ticket "").status = "error" ∧
    (fetch_jira_ticket "http://company.atlassian.net").status = "error" ∧
    ((fetch_jira_ticket "PROJ-123").status = "success" ∧
     ∃ t : JiraTicket, (fetch_jira_ticket "PROJ-123").ticket = some t ∧
       t.ticket_id = extractTicketId "PROJ-123") :=
  ⟨(fetch_jira_ticket_error_characterization "").1.mpr (Or.inl rfl),
   (fetch_jira_ticket_error_characterization "http://company.atlassian.net").1.mpr
     (Or.inr ⟨by decide, by decide⟩),
   (fetch_jira_ticket_error_characterization "PROJ-123").2.2 (by decide)⟩

/-- Claim C10: `extract_pdf_content` returns status "error" for every
input starting with "http://" or "https://" (URL download unimplemented)
and for every non-URL path the file system lacks; it returns status
"success", carrying a payload with a document title, page count, and
sections, exactly when the input is a non-URL path that exists on the
file system. -/
theorem extract_pdf_content_error_characterization
    (fs : String → Bool) (s : String) :
    ((extract_pdf_content fs s).status = "error" ↔
      (isPdfUrl s = true ∨ fs s = false)) ∧
    ((extract_pdf_content fs s).status = "success" ↔
      (isPdfUrl s = false ∧ fs s = true)) ∧
    ((extract_pdf_content fs s).status = "success" →
      ∃ p : PdfPayload, (extract_pdf_content fs s).payload = some p ∧
        p.file_path = s) ∧
    ((extract_pdf_content fs s).status = "error" →
      (extract_pdf_content fs s).payload = none) := by
  by_cases hu : isPdfUrl s = true
  · refine ⟨?_, ?_, ?_, ?_⟩
    · simp [extract_pdf_content, hu]
    · simp [extract_pdf_content, hu]
    · intro hc
      exact absurd hc (by simp [extract_pdf_content, hu])
    · intro _
      simp [extract_pdf_content, hu]
  · by_cases hf : fs s = true
    · refine ⟨?_, ?_, ?_, ?_⟩
      · simp [extract_pdf_content, hu, hf]
      · simp [extract_pdf_content, hu, hf]
      · intro _
        simp only [extract_pdf_content, hu, hf]
        refine ⟨_, rfl, rfl⟩
      · intro hc
        exact absurd hc (by simp [extract_pdf_content, hu, hf])
    · refine ⟨?_, ?_, ?_, ?_⟩
      · simp [extract_pdf_content, hu, hf]
      · simp [extract_pdf_content, hu, hf]
      · intro hc
        exact absurd hc (by simp [extract_pdf_content, hu, hf])
      · intro _
        simp [extract_pdf_content, hu, hf]

/-- Witness for claim C10: against an empty file system a URL input and a
missing local path are errors; against a file system containing
"manual.pdf" that path succeeds with a payload. -/
theorem extract_pdf_content_error_characterization_witness :
    (extract_pdf_content (fun _ => false) "https://example.com/doc.pdf").status = "error" ∧
    (extract_pdf_content (fun _ => false) "manual.pdf").status = "error" ∧
    (extract_pdf_content (fun _ => true) "manual.pdf").status = "success" ∧
    ∃ p : PdfPayload,
      (extract_pdf_content (fun _ => true) "manual.pdf").payload = some p ∧
      p.file_path = "manual.pdf" :=
  ⟨(extract_pdf_content_error_characterization (fun _ => false)
      "https://example.com/doc.pdf").1.mpr (Or.inl (by decide)),
   (extract_pdf_content_error_characterization (fun _ => false)
      "manual.pdf").1.mpr (Or.inr rfl),
   (extract_pdf_content_error_characterization (fun _ => true)
      "manual.pdf").2.1.mpr ⟨by decide, rfl⟩,
   (extract_pdf_content_error_characterization (fun _ => true)
      "manual.pdf").2.2.1
     ((extract_pdf_content_error_characterization (fun _ => true)
        "manual.pdf").2.1.mpr ⟨by decide, rfl⟩)⟩
